import Mathlib

/-!
Shallow embedding of the EngageIQ campaign-orchestration core:
the plan data model (`backend/src/core/planner/models.py`), the
campaign planner registry (`src/core/planner/planner_service.py`),
and the step executor (`backend/src/agents/orchestrator/orchestrator_agent.py`,
`_execute_existing_plan`).

Python `datetime.now()` is modelled by a monotone `clock : Nat` threaded
through the planner state; each planner operation that may read the wall
clock consumes the current tick and increments it.  Opaque result payloads
(Python `Any` / nested dicts) are modelled by a small JSON-like `Value`
type; Python dicts become association lists with insert-or-replace update,
which preserves Python's key-update semantics and insertion order.
-/

namespace EngageIQ

/-- JSON-like payload values standing in for Python `Any` results. -/
inductive Value where
  | str : String → Value
  | num : Nat → Value
  | obj : List (String × Value) → Value
deriving Repr

/-- Python `d[k] = v` on a dict modelled as an association list:
replace the binding in place if the key exists, else append. -/
def dictInsert (k : String) (v : α) : List (String × α) → List (String × α)
  | [] => [(k, v)]
  | (k', v') :: rest => if k' == k then (k, v) :: rest else (k', v') :: dictInsert k v rest

/-- Python `d.get(k)` on a dict modelled as an association list. -/
def dictGet (k : String) : List (String × α) → Option α
  | [] => none
  | (k', v') :: rest => if k' == k then some v' else dictGet k rest

/-- Python `d.get(k, {})` used by the orchestrator on the results mapping. -/
def dictGetD (k : String) (d : List (String × Value)) : Value :=
  match dictGet k d with
  | some v => v
  | none => Value.obj []

/-- Python `v.get(k, {})` on a payload that is a dict (the orchestrator
only applies it to dict-shaped payloads). -/
def Value.getD (v : Value) (k : String) : Value :=
  match v with
  | .obj kvs => dictGetD k kvs
  | _ => Value.obj []

/-- `PlanStep` from `backend/src/core/planner/models.py`. -/
structure PlanStep where
  step : Nat
  description : String
  agent_name : String
  active_form : String
  status : String
  started_at : Option Nat
  completed_at : Option Nat
  result : Option Value
  error : Option String
deriving Repr

/-- `CampaignPlan` from `backend/src/core/planner/models.py`. -/
structure CampaignPlan where
  campaign_id : String
  campaign_name : String
  goal : String
  created_at : Nat
  status : String
  steps : List PlanStep
  results : List (String × Value)
  error : Option String
deriving Repr

/-- `CampaignPlan.get_step`: first step whose `step` field matches. -/
def CampaignPlan.get_step (plan : CampaignPlan) (step_num : Nat) : Option PlanStep :=
  plan.steps.find? (fun s => s.step == step_num)

/-- The in-memory state of the singleton `CampaignPlanner`:
the `campaign_plans` dict plus the model clock. -/
structure Planner where
  campaign_plans : List (String × CampaignPlan)
  clock : Nat
deriving Repr

/-- The planner before any plan is created. -/
def Planner.init : Planner := { campaign_plans := [], clock := 0 }

/-- Python `str.upper()`, character-wise over the string's characters. -/
def upperStr (s : String) : String :=
  String.mk (s.data.map Char.toUpper)

/-- Python `s[:8]`. -/
def takeStr (s : String) (n : Nat) : String :=
  String.mk (s.data.take n)

/-- `CampaignPlanner._generate_campaign_id`:
`"CAM" + str(uuid.uuid4())[:8].upper()`, with the random uuid string
made an explicit input `u`. -/
def generate_campaign_id (u : String) : String :=
  "CAM" ++ upperStr (takeStr u 8)

/-- The fixed five-step topology built inside `create_plan`. -/
def initialSteps : List PlanStep :=
  [ { step := 1, description := "Parse campaign goal and extract criteria",
      agent_name := "GoalParser", active_form := "Parsing campaign goal",
      status := "pending", started_at := none, completed_at := none,
      result := none, error := none },
    { step := 2, description := "Load agent population data from CSV files",
      agent_name := "DataLoader", active_form := "Loading agent data",
      status := "pending", started_at := none, completed_at := none,
      result := none, error := none },
    { step := 3, description := "Filter agents based on parsed criteria",
      agent_name := "SegmentationAgent", active_form := "Segmenting agent population",
      status := "pending", started_at := none, completed_at := none,
      result := none, error := none },
    { step := 4, description := "Generate comprehensive agent profiles and insights",
      agent_name := "ProfileGeneratorAgent", active_form := "Analyzing segment characteristics",
      status := "pending", started_at := none, completed_at := none,
      result := none, error := none },
    { step := 5, description := "Develop comprehensive campaign strategy and recommendations",
      agent_name := "CampaignStrategistAgent", active_form := "Creating campaign strategy",
      status := "pending", started_at := none, completed_at := none,
      result := none, error := none } ]

/-- `CampaignPlanner.create_plan`.  `u` is the uuid string drawn by
`_generate_campaign_id`; the auto-generated name's timestamp is rendered
from the clock.  Python `if not campaign_name` is true for `None` and for
the empty string. -/
def create_plan (p : Planner) (goal : String) (campaign_name : Option String)
    (u : String) : (String × CampaignPlan) × Planner :=
  let campaign_id := generate_campaign_id u
  let name :=
    match campaign_name with
    | none => "Campaign " ++ toString p.clock
    | some s => if s == "" then "Campaign " ++ toString p.clock else s
  let plan : CampaignPlan :=
    { campaign_id := campaign_id, campaign_name := name, goal := goal,
      created_at := p.clock, status := "pending", steps := initialSteps,
      results := [], error := none }
  ((campaign_id, plan),
   { campaign_plans := dictInsert campaign_id plan p.campaign_plans,
     clock := p.clock + 1 })

/-- `CampaignPlanner.get_plan`. -/
def Planner.get_plan (p : Planner) (campaign_id : String) : Option CampaignPlan :=
  dictGet campaign_id p.campaign_plans

/-- `CampaignPlanner._update_plan_status`: the derived plan status,
a pure function of the step statuses. -/
def derivedStatus (steps : List PlanStep) : String :=
  if steps.any (fun s => s.status == "in_progress") then "executing"
  else if steps.any (fun s => s.status == "failed") then "failed"
  else if steps.all (fun s => s.status == "completed") then "completed"
  else "pending"

/-- The body of `update_step_status` applied to the located step:
sets `status`, stamps `started_at` on `in_progress` and `completed_at`
on `completed`/`failed`, stores a non-`None` result, and sets `error`
when it is truthy (non-`None` and non-empty). -/
def applyStepUpdate (now : Nat) (status : String) (result : Option Value)
    (error : Option String) (s : PlanStep) : PlanStep :=
  let s := { s with status := status }
  let s :=
    if status == "in_progress" then { s with started_at := some now }
    else if status == "completed" || status == "failed" then
      { s with completed_at := some now }
    else s
  let s :=
    match result with
    | some r => { s with result := some r }
    | none => s
  match error with
  | some e => if e == "" then s else { s with error := some e }
  | none => s

/-- Apply `f` to the first step whose `step` field matches `step_num`
(the step object `get_step` returns is mutated in place in Python). -/
def updateFirstStep (step_num : Nat) (f : PlanStep → PlanStep) :
    List PlanStep → List PlanStep
  | [] => []
  | s :: rest =>
      if s.step == step_num then f s :: rest
      else s :: updateFirstStep step_num f rest

/-- `CampaignPlanner.update_step_status`.  Returns the success flag and
the new planner state; the clock advances on every call. -/
def update_step_status (p : Planner) (campaign_id : String) (step_num : Nat)
    (status : String) (result : Option Value) (error : Option String) :
    Bool × Planner :=
  match dictGet campaign_id p.campaign_plans with
  | none => (false, p)
  | some plan =>
    match plan.get_step step_num with
    | none => (false, p)
    | some step =>
      let steps' := updateFirstStep step_num
        (applyStepUpdate p.clock status result error) plan.steps
      let results' :=
        match result with
        | some r => dictInsert step.agent_name r plan.results
        | none => plan.results
      let plan' := { plan with steps := steps', results := results' }
      let plan' := { plan' with status := derivedStatus plan'.steps }
      (true,
       { campaign_plans := dictInsert campaign_id plan' p.campaign_plans,
         clock := p.clock + 1 })

/-- `CampaignPlanner.update_plan_status`: the direct plan-level override.
`error` is set only when truthy. -/
def update_plan_status (p : Planner) (campaign_id : String) (status : String)
    (error : Option String) : Bool × Planner :=
  match dictGet campaign_id p.campaign_plans with
  | none => (false, p)
  | some plan =>
    let plan' := { plan with status := status }
    let plan' :=
      match error with
      | some e => if e == "" then plan' else { plan' with error := some e }
      | none => plan'
    (true,
     { campaign_plans := dictInsert campaign_id plan' p.campaign_plans,
       clock := p.clock })

/-- The serializable view of one step built by `PlanStep.to_dict`. -/
structure StepView where
  step : Nat
  description : String
  agent : String
  active_form : String
  status : String
  started_at : Option Nat
  completed_at : Option Nat
  error : Option String
deriving Repr

/-- `PlanStep.to_dict`. -/
def PlanStep.to_dict (s : PlanStep) : StepView :=
  { step := s.step, description := s.description, agent := s.agent_name,
    active_form := s.active_form, status := s.status,
    started_at := s.started_at, completed_at := s.completed_at,
    error := s.error }

/-- The success payload of `CampaignPlanner.get_plan_status`. -/
structure PlanStatusView where
  campaign_id : String
  campaign_name : String
  goal : String
  status : String
  created_at : Nat
  steps : List StepView
  results : List (String × Value)
  error : Option String
deriving Repr

/-- `CampaignPlanner.get_plan_status`; `none` models the
`{"success": False, ...}` not-found dictionary. -/
def get_plan_status (p : Planner) (campaign_id : String) :
    Option PlanStatusView :=
  match dictGet campaign_id p.campaign_plans with
  | none => none
  | some plan =>
      some { campaign_id := plan.campaign_id,
             campaign_name := plan.campaign_name,
             goal := plan.goal, status := plan.status,
             created_at := plan.created_at,
             steps := plan.steps.map PlanStep.to_dict,
             results := plan.results, error := plan.error }

/-- The five external collaborators the orchestrator dispatches to.
Each takes the message content it is sent and either returns a payload
or raises (models `process` on the sub-agents). -/
structure Collaborators where
  goalParser : Value → Except String Value
  data_loader : Value → Except String Value
  segmentation : Value → Except String Value
  profile_generator : Value → Except String Value
  campaign_strategist : Value → Except String Value

/-- `OrchestratorAgent._execute_single_step`: routes on `agent_name`,
builds the message content from the goal and the accumulated results,
and wraps each collaborator's payload the way the `_execute_*_step`
helpers do. -/
def execute_single_step (c : Collaborators) (step : PlanStep)
    (plan : CampaignPlan) : Except String Value :=
  let goal := plan.goal
  let results := plan.results
  if step.agent_name == "GoalParser" then
    (c.goalParser (Value.obj [("goal", Value.str goal)])).map
      (fun r => Value.obj [("criteria", r)])
  else if step.agent_name == "DataLoader" then
    (c.data_loader (Value.obj [])).map
      (fun r => Value.obj [("agent_data", r)])
  else if step.agent_name == "SegmentationAgent" then
    (c.segmentation (Value.obj
        [("criteria", (dictGetD "GoalParser" results).getD "criteria"),
         ("agent_data", (dictGetD "DataLoader" results).getD "agent_data")])).map
      (fun r => Value.obj [("segmentation", r)])
  else if step.agent_name == "ProfileGeneratorAgent" then
    (c.profile_generator (Value.obj
        [("segmentation", (dictGetD "SegmentationAgent" results).getD "segmentation"),
         ("agent_data", (dictGetD "DataLoader" results).getD "agent_data"),
         ("criteria", (dictGetD "GoalParser" results).getD "criteria")])).map
      (fun r => Value.obj [("profiles", r)])
  else if step.agent_name == "CampaignStrategistAgent" then
    (c.campaign_strategist (Value.obj
        [("profiles", (dictGetD "ProfileGeneratorAgent" results).getD "profiles"),
         ("goal", Value.str goal),
         ("criteria", (dictGetD "GoalParser" results).getD "criteria")])).map
      (fun r => Value.obj [("strategy", r)])
  else
    .error ("Unknown agent: " ++ step.agent_name)

/-- In Python the step loop keeps one reference to the plan object the
registry mutates; re-reading the registry models that aliasing.  The
fallback is never reached once the initial fetch succeeded, because
plans are never removed. -/
def fetchPlan (p : Planner) (campaign_id : String) (fallback : CampaignPlan) :
    CampaignPlan :=
  match dictGet campaign_id p.campaign_plans with
  | some plan => plan
  | none => fallback

/-- The step loop of `OrchestratorAgent._execute_existing_plan`:
mark `in_progress`, dispatch, then mark `completed` with the result, or
mark `failed` with the error text and re-raise (short-circuit). -/
def runSteps (c : Collaborators) (campaign_id : String)
    (fallback : CampaignPlan) :
    List PlanStep → Planner → Except (String × Planner) Planner
  | [], p => .ok p
  | step :: rest, p =>
      let p1 := (update_step_status p campaign_id step.step "in_progress"
        none none).2
      match execute_single_step c step (fetchPlan p1 campaign_id fallback) with
      | .ok result =>
          let p2 := (update_step_status p1 campaign_id step.step "completed"
            (some result) none).2
          runSteps c campaign_id fallback rest p2
      | .error msg =>
          let p2 := (update_step_status p1 campaign_id step.step "failed"
            none (some msg)).2
          .error (msg, p2)

/-- The outcome of `_execute_existing_plan`: the returned success flag
and error text, plus the final planner state. -/
structure RunOutcome where
  success : Bool
  err : Option String
  planner : Planner

/-- `OrchestratorAgent._execute_existing_plan`. -/
def execute_existing_plan (c : Collaborators) (p : Planner)
    (campaign_id : String) : RunOutcome :=
  match dictGet campaign_id p.campaign_plans with
  | none =>
      { success := false,
        err := some ("No plan found for campaign " ++ campaign_id),
        planner := p }
  | some plan =>
      match runSteps c campaign_id plan plan.steps p with
      | .ok p' =>
          let p'' := (update_plan_status p' campaign_id "completed" none).2
          { success := true, err := none, planner := p'' }
      | .error (msg, p') =>
          let p'' := (update_plan_status p' campaign_id "failed" (some msg)).2
          { success := false, err := some msg, planner := p'' }

instance : Inhabited Value := ⟨Value.obj []⟩

instance : Inhabited PlanStep :=
  ⟨{ step := 0, description := "", agent_name := "", active_form := "",
     status := "", started_at := none, completed_at := none,
     result := none, error := none }⟩

instance : Inhabited CampaignPlan :=
  ⟨{ campaign_id := "", campaign_name := "", goal := "", created_at := 0,
     status := "", steps := [], results := [], error := none }⟩

/-- One registry call, for stating reachability over call sequences. -/
inductive Op where
  | createOp (goal : String) (name : Option String) (u : String)
  | stepOp (cid : String) (n : Nat) (st : String) (r : Option Value) (e : Option String)
  | planOp (cid : String) (st : String) (e : Option String)

/-- Whether the call is the direct plan-level override `update_plan_status`. -/
def Op.isPlanOverride : Op → Bool
  | .planOp _ _ _ => true
  | _ => false

/-- Apply one registry call to the planner state. -/
def applyOp (p : Planner) : Op → Planner
  | .createOp g nm u => (create_plan p g nm u).2
  | .stepOp cid n st r e => (update_step_status p cid n st r e).2
  | .planOp cid st e => (update_plan_status p cid st e).2

/-- Apply a sequence of registry calls. -/
def applyOps (p : Planner) (ops : List Op) : Planner :=
  ops.foldl applyOp p

/-- Every stored plan's status is the pure derivation over its steps. -/
def statusInv (p : Planner) : Prop :=
  ∀ cid plan, p.get_plan cid = some plan → plan.status = derivedStatus plan.steps

/-- A collaborator suite in which every call returns without raising. -/
def allOkColl (g1 g2 g3 g4 g5 : Value → Value) : Collaborators :=
  { goalParser := fun v => .ok (g1 v),
    data_loader := fun v => .ok (g2 v),
    segmentation := fun v => .ok (g3 v),
    profile_generator := fun v => .ok (g4 v),
    campaign_strategist := fun v => .ok (g5 v) }

/-- Create a plan and immediately run it, as the campaign service does. -/
def runCreated (c : Collaborators) (p : Planner) (goal : String)
    (nm : Option String) (u : String) : RunOutcome :=
  execute_existing_plan c (create_plan p goal nm u).2 (create_plan p goal nm u).1.1

/-- A collaborator suite in which the stage of step `k` raises with message
`m`, every earlier stage succeeds, and later stages are arbitrary. -/
def collFailAt (k : Nat) (m : String) (g1 g2 g3 g4 : Value → Value)
    (f2 f3 f4 f5 : Value → Except String Value) : Collaborators :=
  { goalParser :=
      if k == 1 then fun _ => .error m else fun v => .ok (g1 v),
    data_loader :=
      if k == 2 then fun _ => .error m else if k < 2 then f2 else fun v => .ok (g2 v),
    segmentation :=
      if k == 3 then fun _ => .error m else if k < 3 then f3 else fun v => .ok (g3 v),
    profile_generator :=
      if k == 4 then fun _ => .error m else if k < 4 then f4 else fun v => .ok (g4 v),
    campaign_strategist :=
      if k == 5 then fun _ => .error m else f5 }

/-- Identity payload transformer for concrete stub collaborators. -/
def idVal : Value → Value := fun v => v

/-- A concrete always-succeeding stub collaborator. -/
def okStub : Value → Except String Value := fun _ => .ok (Value.obj [])

/-- The planner state of concrete scenario B: one freshly created plan. -/
def scenarioPlanner : Planner := (create_plan Planner.init "goalB" none "u").2

/-- The stored plan of `scenarioPlanner`. -/
def scenarioPlan : CampaignPlan := (scenarioPlanner.get_plan "CAMU").getD default

/-- Step 1 of `scenarioPlan`. -/
def scenarioStep : PlanStep := (scenarioPlan.get_step 1).getD default

/-- The scenario B result payload. -/
def retentionResult : Value := Value.obj [("objective", Value.str "retention")]

/-- Registry state after a create followed by a direct plan-status override. -/
def overrideState : Planner :=
  applyOps Planner.init
    [Op.createOp "g" none "u", Op.planOp "CAMU" "completed" none]

/-- Registry state after marking step 1 failed and then step 2 in-progress. -/
def mixedState : Planner :=
  applyOps Planner.init
    [Op.createOp "g" none "u", Op.stepOp "CAMU" 1 "failed" none none,
     Op.stepOp "CAMU" 2 "in_progress" none none]

/-- Plan stored after one create op. -/
def freshOpsPlan : CampaignPlan :=
  ((applyOps Planner.init [Op.createOp "g" none "u"]).get_plan "CAMU").getD default

/-- Registry state with one plan whose step 1 was marked completed and then
marked in-progress again. -/
def terminalExitState : Planner :=
  (update_step_status
    (update_step_status (create_plan Planner.init "g" none "u").2
      "CAMU" 1 "completed" none none).2
    "CAMU" 1 "in_progress" none none).2

/-- A run in which the 2nd stage raises with an empty message. -/
def emptyMsgRun : RunOutcome :=
  runCreated (collFailAt 2 "" idVal idVal idVal idVal okStub okStub okStub okStub)
    Planner.init "g" none "u"


theorem dictGet_dictInsert_self (k : String) (v : α) (m : List (String × α)) :
    dictGet k (dictInsert k v m) = some v := by
  induction m with
  | nil => simp [dictInsert, dictGet]
  | cons hd tl ih =>
      obtain ⟨k', v'⟩ := hd
      by_cases h : k' == k
      · simp [dictInsert, dictGet, h]
      · simp only [dictInsert, dictGet, h, if_neg] at *
        simp [h, ih]

theorem dictGet_dictInsert (k q : String) (v : α) (m : List (String × α)) :
    dictGet q (dictInsert k v m) = if k == q then some v else dictGet q m := by
  induction m with
  | nil => simp [dictInsert, dictGet]
  | cons hd tl ih =>
      obtain ⟨k', v'⟩ := hd
      by_cases h : k' == k
      · have : k' = k := by simpa using h
        subst this
        by_cases hq : k' == q
        · have : k' = q := by simpa using hq
          subst this
          simp [dictInsert, dictGet]
        · simp [dictInsert, dictGet, hq]
      · by_cases hq : k' == q
        · have : k' = q := by simpa using hq
          subst this
          have hkq : (k == k') = false := by
            simp only [beq_eq_false_iff_ne]
            intro hh
            subst hh
            simp at h
          simp [dictInsert, dictGet, h, hkq]
        · simp [dictInsert, dictGet, h, hq, ih]

theorem dictInsert_dictInsert_self (k : String) (v w : α) (m : List (String × α)) :
    dictInsert k v (dictInsert k w m) = dictInsert k v m := by
  induction m with
  | nil => simp [dictInsert]
  | cons hd tl ih =>
      obtain ⟨a, b⟩ := hd
      by_cases h : a == k
      · simp [dictInsert, h]
      · simp [dictInsert, h, ih]

theorem applyStepUpdate_step (now : Nat) (st : String) (r : Option Value)
    (e : Option String) (s : PlanStep) :
    (applyStepUpdate now st r e s).step = s.step := by
  unfold applyStepUpdate
  cases r <;> cases e <;> dsimp only <;> split <;>
    first | rfl | (split <;> first | rfl | (split <;> rfl))

theorem applyStepUpdate_status (now : Nat) (st : String) (r : Option Value)
    (e : Option String) (s : PlanStep) :
    (applyStepUpdate now st r e s).status = st := by
  unfold applyStepUpdate
  cases r <;> cases e <;> dsimp only <;> split <;>
    first | rfl | (split <;> first | rfl | (split <;> rfl))

theorem applyStepUpdate_result_some (now : Nat) (st : String) (r : Value)
    (e : Option String) (s : PlanStep) :
    (applyStepUpdate now st (some r) e s).result = some r := by
  unfold applyStepUpdate
  cases e <;> dsimp only <;> split <;>
    first | rfl | (split <;> first | rfl | (split <;> rfl))

theorem applyStepUpdate_result_none (now : Nat) (st : String)
    (e : Option String) (s : PlanStep) :
    (applyStepUpdate now st none e s).result = s.result := by
  unfold applyStepUpdate
  cases e <;> dsimp only <;> split <;>
    first | rfl | (split <;> first | rfl | (split <;> rfl))

theorem find?_updateFirstStep (n : Nat) (f : PlanStep → PlanStep)
    (hf : ∀ s, (f s).step = s.step) (steps : List PlanStep) :
    (updateFirstStep n f steps).find? (fun s => s.step == n) =
      (steps.find? (fun s => s.step == n)).map f := by
  induction steps with
  | nil => simp [updateFirstStep]
  | cons s rest ih =>
      by_cases h : s.step == n
      · simp [updateFirstStep, h, List.find?, hf]
      · simp only [updateFirstStep, h, if_neg, Bool.false_eq_true, not_false_eq_true]
        simp [List.find?, h, ih]

theorem map_updateFirstStep (n : Nat) (f : PlanStep → PlanStep) (g : PlanStep → α)
    (hf : ∀ s, g (f s) = g s) (steps : List PlanStep) :
    (updateFirstStep n f steps).map g = steps.map g := by
  induction steps with
  | nil => rfl
  | cons s rest ih =>
      by_cases h : s.step == n
      · simp [updateFirstStep, h, hf]
      · simp [updateFirstStep, h, ih]

/-- Characterization of `update_step_status` when the plan and step exist. -/
theorem update_step_status_found (p : Planner) (cid : String) (n : Nat)
    (st : String) (r : Option Value) (e : Option String)
    (plan : CampaignPlan) (step : PlanStep)
    (hplan : p.get_plan cid = some plan) (hstep : plan.get_step n = some step) :
    update_step_status p cid n st r e =
      (true,
       { campaign_plans :=
           dictInsert cid
             { plan with
                 steps := updateFirstStep n (applyStepUpdate p.clock st r e) plan.steps,
                 results :=
                   match r with
                   | some rv => dictInsert step.agent_name rv plan.results
                   | none => plan.results,
                 status := derivedStatus
                   (updateFirstStep n (applyStepUpdate p.clock st r e) plan.steps) }
             p.campaign_plans,
         clock := p.clock + 1 }) := by
  unfold update_step_status
  rw [show dictGet cid p.campaign_plans = some plan from hplan]
  dsimp only
  rw [hstep]

/-- Characterization of `update_step_status` when the plan or step is missing. -/
theorem update_step_status_not_found_eq (p : Planner) (cid : String) (n : Nat)
    (st : String) (r : Option Value) (e : Option String)
    (h : ((p.get_plan cid).bind (fun plan => plan.get_step n)) = none) :
    update_step_status p cid n st r e = (false, p) := by
  unfold update_step_status
  cases hp : dictGet cid p.campaign_plans with
  | none => rfl
  | some plan =>
      have : plan.get_step n = none := by
        have := h
        unfold Planner.get_plan at this
        rw [hp] at this
        simpa using this
      dsimp only
      rw [this]

/-- After a successful `update_step_status`, the stored plan's located step
is the transformed step, and the clock advanced one tick. -/
theorem update_step_status_state (p : Planner) (cid : String) (n : Nat)
    (st : String) (r : Option Value) (e : Option String)
    (plan : CampaignPlan) (step : PlanStep)
    (hplan : p.get_plan cid = some plan) (hstep : plan.get_step n = some step) :
    ∃ plan', (update_step_status p cid n st r e).2.get_plan cid = some plan' ∧
      plan'.get_step n = some (applyStepUpdate p.clock st r e step) ∧
      (update_step_status p cid n st r e).2.clock = p.clock + 1 := by
  rw [update_step_status_found p cid n st r e plan step hplan hstep]
  refine ⟨{ plan with
      steps := updateFirstStep n (applyStepUpdate p.clock st r e) plan.steps,
      results := match r with
        | some rv => dictInsert step.agent_name rv plan.results
        | none => plan.results,
      status := derivedStatus
        (updateFirstStep n (applyStepUpdate p.clock st r e) plan.steps) },
    ?_, ?_, rfl⟩
  · dsimp only [Planner.get_plan]
    exact dictGet_dictInsert_self cid _ p.campaign_plans
  · show CampaignPlan.get_step _ n = _
    unfold CampaignPlan.get_step
    dsimp only
    rw [find?_updateFirstStep n _ (fun s => applyStepUpdate_step _ _ _ _ s)]
    unfold CampaignPlan.get_step at hstep
    rw [hstep]
    rfl

theorem campaign_prefix_ne_empty (x : String) : "Campaign " ++ x ≠ "" := by
  intro h
  have hl := congrArg String.length h
  rw [String.length_append] at hl
  have h9 : ("Campaign " : String).length = 9 := rfl
  have h0 : ("" : String).length = 0 := rfl
  omega

theorem string_append_left_cancel (a x y : String) (h : a ++ x = a ++ y) :
    x = y := by
  cases x with
  | mk dx =>
    cases y with
    | mk dy =>
      have hd := congrArg String.data h
      simp only [String.data_append] at hd
      have := List.append_cancel_left hd
      exact congrArg String.mk this

theorem statusInv_init : statusInv Planner.init := by
  intro cid plan h
  simp [Planner.init, Planner.get_plan, dictGet] at h

theorem statusInv_create (p : Planner) (hp : statusInv p) (g : String)
    (nm : Option String) (u : String) : statusInv (create_plan p g nm u).2 := by
  intro cid plan h
  unfold create_plan at h
  dsimp only [Planner.get_plan] at h
  rw [dictGet_dictInsert] at h
  by_cases hc : generate_campaign_id u == cid
  · rw [if_pos hc] at h
    obtain rfl : _ = plan := Option.some.inj h
    rfl
  · rw [if_neg (by simpa using hc)] at h
    exact hp cid plan h

theorem statusInv_stepUpd (p : Planner) (hp : statusInv p) (cid : String)
    (n : Nat) (st : String) (r : Option Value) (e : Option String) :
    statusInv (update_step_status p cid n st r e).2 := by
  intro cid' plan' h
  rcases hplan : p.get_plan cid with _ | plan
  · rw [update_step_status_not_found_eq p cid n st r e (by rw [hplan]; rfl)] at h
    exact hp cid' plan' h
  · rcases hstep : plan.get_step n with _ | step
    · rw [update_step_status_not_found_eq p cid n st r e
        (by rw [hplan]; simpa using hstep)] at h
      exact hp cid' plan' h
    · rw [update_step_status_found p cid n st r e plan step hplan hstep] at h
      dsimp only [Planner.get_plan] at h
      rw [dictGet_dictInsert] at h
      by_cases hc : cid == cid'
      · rw [if_pos hc] at h
        obtain rfl : _ = plan' := Option.some.inj h
        rfl
      · rw [if_neg (by simpa using hc)] at h
        exact hp cid' plan' h

theorem applyOps_statusInv (ops : List Op)
    (hops : ∀ op ∈ ops, op.isPlanOverride = false) (p : Planner)
    (hp : statusInv p) : statusInv (applyOps p ops) := by
  induction ops generalizing p with
  | nil => exact hp
  | cons op rest ih =>
      have hop := hops op (List.mem_cons_self op rest)
      have hrest : ∀ op' ∈ rest, op'.isPlanOverride = false :=
        fun op' h' => hops op' (List.mem_cons_of_mem op h')
      show statusInv (applyOps (applyOp p op) rest)
      refine ih hrest (applyOp p op) ?_
      cases op with
      | createOp g nm u => exact statusInv_create p hp g nm u
      | stepOp cid n st r e => exact statusInv_stepUpd p hp cid n st r e
      | planOp cid st e => simp [Op.isPlanOverride] at hop

theorem derivedStatus_eq_executing_iff (steps : List PlanStep) :
    derivedStatus steps = "executing" ↔
      steps.any (fun s => s.status == "in_progress") = true := by
  unfold derivedStatus
  split_ifs with h1 h2 h3 <;> simp_all

theorem derivedStatus_eq_failed_iff (steps : List PlanStep) :
    derivedStatus steps = "failed" ↔
      (steps.any (fun s => s.status == "failed") = true ∧
       steps.any (fun s => s.status == "in_progress") = false) := by
  unfold derivedStatus
  split_ifs with h1 h2 h3 <;> simp_all

theorem derivedStatus_eq_completed_iff (steps : List PlanStep) :
    derivedStatus steps = "completed" ↔
      steps.all (fun s => s.status == "completed") = true := by
  unfold derivedStatus
  split_ifs with h1 h2 h3
  · simp only [List.any_eq_true, beq_iff_eq] at h1
    obtain ⟨s, hmem, hs⟩ := h1
    constructor
    · intro hcontra
      exact absurd hcontra (by decide)
    · intro hall
      rw [List.all_eq_true] at hall
      have := hall s hmem
      rw [hs] at this
      simp at this
  · simp only [List.any_eq_true, beq_iff_eq] at h2
    obtain ⟨s, hmem, hs⟩ := h2
    constructor
    · intro hcontra
      exact absurd hcontra (by decide)
    · intro hall
      rw [List.all_eq_true] at hall
      have := hall s hmem
      rw [hs] at this
      simp at this
  · simp [h3]
  · simp [h3]


set_option maxHeartbeats 2000000 in
/-- C1: for every plan created by `create_plan`, running it with five
collaborators that all return without raising leaves the run successful, the
plan's status `completed`, all five steps `completed`, and the plan-level
results mapping with exactly the five agent names as its keys. -/
theorem run_all_success (p : Planner) (goal : String) (nm : Option String)
    (u : String) (g1 g2 g3 g4 g5 : Value → Value) :
    ((runCreated (allOkColl g1 g2 g3 g4 g5) p goal nm u).success = true) ∧
    (((get_plan_status (runCreated (allOkColl g1 g2 g3 g4 g5) p goal nm u).planner
        (create_plan p goal nm u).1.1).map
      (fun v => (v.status, v.steps.map (fun s => s.status),
                 v.results.map Prod.fst))) =
      some ("completed",
        ["completed", "completed", "completed", "completed", "completed"],
        ["GoalParser", "DataLoader", "SegmentationAgent",
         "ProfileGeneratorAgent", "CampaignStrategistAgent"])) := by
  constructor <;>
  · simp [runCreated, allOkColl, create_plan, execute_existing_plan, runSteps,
      update_step_status, update_plan_status, Planner.get_plan, initialSteps,
      updateFirstStep, applyStepUpdate, derivedStatus, CampaignPlan.get_step,
      List.find?, dictGet_dictInsert_self, dictGet_dictInsert,
      dictInsert_dictInsert_self, beq_self_eq_true, execute_single_step,
      fetchPlan, get_plan_status, dictGetD, Value.getD, Except.map,
      PlanStep.to_dict]
    try simp [dictGet, dictInsert, dictGetD]

/-- C2 counterexample: when the 2nd collaborator raises with an empty
message, the step is marked `failed` but neither the step's `error` nor the
plan's `error` records the captured (empty) message — both stay unset,
because the registry only stores a truthy error string.  This refutes the
claim that the exception message is always recorded. -/
theorem run_fail_empty_message_cex :
    ((get_plan_status emptyMsgRun.planner "CAMU").map
      (fun v => (v.status, v.error, v.steps.map (fun s => (s.status, s.error))))) =
      some ("failed", none,
        [("completed", none), ("failed", none), ("pending", none),
         ("pending", none), ("pending", none)]) := rfl

set_option maxHeartbeats 4000000 in
/-- C2 (amended): if the collaborator for step `k` (1 ≤ k ≤ 5) raises with a
non-empty message `m`, the run fails with error `m`; in the final state steps
before `k` are `completed`, step `k` is `failed` with its `error` equal to
`m`, steps after `k` stay `pending` with no timestamps (they never enter
`in_progress`), the plan's status is `failed`, and the plan-level `error`
equals `m`. -/
theorem run_fail_fast (p : Planner) (goal : String) (nm : Option String)
    (u : String) (k : Nat) (hk1 : 1 ≤ k) (hk5 : k ≤ 5) (m : String)
    (hm : m ≠ "") (g1 g2 g3 g4 : Value → Value)
    (f2 f3 f4 f5 : Value → Except String Value) :
    ((runCreated (collFailAt k m g1 g2 g3 g4 f2 f3 f4 f5) p goal nm u).success
      = false) ∧
    ((runCreated (collFailAt k m g1 g2 g3 g4 f2 f3 f4 f5) p goal nm u).err
      = some m) ∧
    (((get_plan_status
        (runCreated (collFailAt k m g1 g2 g3 g4 f2 f3 f4 f5) p goal nm u).planner
        (create_plan p goal nm u).1.1).map
      (fun v => (v.status, v.error, v.steps.map (fun s => s.status),
                 v.steps.map (fun s => s.error),
                 v.steps.map (fun s => s.started_at.isSome),
                 v.steps.map (fun s => s.completed_at.isSome)))) =
      some ("failed", some m,
        (List.range 5).map (fun i =>
          if i + 1 < k then "completed" else if i + 1 == k then "failed"
          else "pending"),
        (List.range 5).map (fun i => if i + 1 == k then some m else none),
        (List.range 5).map (fun i => decide (i + 1 ≤ k)),
        (List.range 5).map (fun i => decide (i + 1 ≤ k)))) := by
  have hb : (m == "") = false := by simpa using hm
  interval_cases k <;>
  · refine ⟨?_, ?_, ?_⟩ <;>
    · simp [runCreated, collFailAt, create_plan, execute_existing_plan, runSteps,
        update_step_status, update_plan_status, Planner.get_plan, initialSteps,
        updateFirstStep, applyStepUpdate, derivedStatus, CampaignPlan.get_step,
        List.find?, dictGet_dictInsert_self, dictGet_dictInsert,
        dictInsert_dictInsert_self, beq_self_eq_true, execute_single_step,
        fetchPlan, get_plan_status, dictGetD, Value.getD, Except.map,
        PlanStep.to_dict, hb]
      try simp [dictGet, dictInsert, dictGetD, hb]
      try simp [List.range_succ]

/-- C2 witness: concrete scenario E — the 2nd stub collaborator raises with
message "timeout". -/
theorem run_fail_fast_witness :
    (1 ≤ 2) ∧ (2 ≤ 5) ∧ (("timeout" : String) ≠ "") ∧
    ((runCreated (collFailAt 2 "timeout" idVal idVal idVal idVal okStub okStub
        okStub okStub) Planner.init "g" none "u").success = false) ∧
    ((runCreated (collFailAt 2 "timeout" idVal idVal idVal idVal okStub okStub
        okStub okStub) Planner.init "g" none "u").err = some "timeout") ∧
    (((get_plan_status
        (runCreated (collFailAt 2 "timeout" idVal idVal idVal idVal okStub okStub
          okStub okStub) Planner.init "g" none "u").planner
        (create_plan Planner.init "g" none "u").1.1).map
      (fun v => (v.status, v.error, v.steps.map (fun s => s.status),
                 v.steps.map (fun s => s.error),
                 v.steps.map (fun s => s.started_at.isSome),
                 v.steps.map (fun s => s.completed_at.isSome)))) =
      some ("failed", some "timeout",
        (List.range 5).map (fun i =>
          if i + 1 < 2 then "completed" else if i + 1 == 2 then "failed"
          else "pending"),
        (List.range 5).map (fun i => if i + 1 == 2 then some "timeout" else none),
        (List.range 5).map (fun i => decide (i + 1 ≤ 2)),
        (List.range 5).map (fun i => decide (i + 1 ≤ 2)))) := by
  have h := run_fail_fast Planner.init "g" none "u" 2 (by decide) (by decide)
    "timeout" (by decide) idVal idVal idVal idVal okStub okStub okStub okStub
  exact ⟨by decide, by decide, by decide, h.1, h.2.1, h.2.2⟩

/-- C3: immediately after every successful `update_step_status` call, the
stored plan's status equals the pure derivation `derivedStatus` over its step
statuses. -/
theorem update_step_status_derives (p : Planner) (cid : String) (n : Nat)
    (st : String) (r : Option Value) (e : Option String)
    (h : (update_step_status p cid n st r e).1 = true) :
    (((update_step_status p cid n st r e).2.get_plan cid).map
        (fun pl => pl.status == derivedStatus pl.steps)) = some true := by
  rcases hp : dictGet cid p.campaign_plans with _ | plan
  · exfalso
    rw [update_step_status_not_found_eq p cid n st r e (by simp [Planner.get_plan, hp])] at h
    simp at h
  · rcases hstep : plan.get_step n with _ | step
    · exfalso
      rw [update_step_status_not_found_eq p cid n st r e
        (by simp [Planner.get_plan, hp, hstep])] at h
      simp at h
    · rw [update_step_status_found p cid n st r e plan step
        (by simpa [Planner.get_plan] using hp) hstep]
      simp [Planner.get_plan, dictGet_dictInsert_self]

/-- C3 witness: a concrete successful update on a fresh plan. -/
theorem update_step_status_derives_witness :
    ((update_step_status (create_plan Planner.init "g" none "u").2 "CAMU" 1
        "in_progress" none none).1 = true) ∧
    (((update_step_status (create_plan Planner.init "g" none "u").2 "CAMU" 1
        "in_progress" none none).2.get_plan "CAMU").map
      (fun pl => pl.status == derivedStatus pl.steps)) = some true :=
  ⟨rfl, update_step_status_derives (create_plan Planner.init "g" none "u").2
    "CAMU" 1 "in_progress" none none rfl⟩

/-- C4: for every goal and every optional name, `create_plan` returns a plan
with exactly five steps numbered 1..5 in order, the fixed agent-name
sequence, plan status `pending`, every step `pending`, the goal stored
verbatim, and a non-empty name (auto-generated when none, or an empty one,
is supplied). -/
theorem create_plan_postcondition (p : Planner) (goal : String)
    (nm : Option String) (u : String) :
    ((create_plan p goal nm u).1.2.steps.map (fun s => s.step) = [1, 2, 3, 4, 5]) ∧
    ((create_plan p goal nm u).1.2.steps.map (fun s => s.agent_name) =
      ["GoalParser", "DataLoader", "SegmentationAgent",
       "ProfileGeneratorAgent", "CampaignStrategistAgent"]) ∧
    ((create_plan p goal nm u).1.2.status = "pending") ∧
    ((create_plan p goal nm u).1.2.steps.all (fun s => s.status == "pending") = true) ∧
    ((create_plan p goal nm u).1.2.goal = goal) ∧
    ((create_plan p goal nm u).1.2.campaign_name ≠ "") := by
  refine ⟨rfl, rfl, rfl, rfl, rfl, ?_⟩
  unfold create_plan
  dsimp only
  cases nm with
  | none => exact campaign_prefix_ne_empty _
  | some s =>
      by_cases hs : s == ""
      · simp only [hs, if_pos]
        exact campaign_prefix_ne_empty _
      · simp only [hs, Bool.false_eq_true, if_neg, not_false_eq_true]
        intro h
        subst h
        simp at hs

/-- C5 (amended): in every registry state reachable by `create_plan` and
`update_step_status` calls (excluding the direct `update_plan_status`
override), each stored plan's status is `completed` iff all its steps are
completed, `failed` iff some step is failed and none is in progress, and
`executing` iff some step is in progress. -/
theorem reachable_status_biconditional (ops : List Op)
    (hops : ops.all (fun op => !op.isPlanOverride) = true)
    (cid : String) (plan : CampaignPlan)
    (h : (applyOps Planner.init ops).get_plan cid = some plan) :
    (plan.status = "completed" ↔
      plan.steps.all (fun s => s.status == "completed") = true) ∧
    (plan.status = "failed" ↔
      (plan.steps.any (fun s => s.status == "failed") = true ∧
       plan.steps.any (fun s => s.status == "in_progress") = false)) ∧
    (plan.status = "executing" ↔
      plan.steps.any (fun s => s.status == "in_progress") = true) := by
  have hops' : ∀ op ∈ ops, op.isPlanOverride = false := by
    intro op hmem
    have := (List.all_eq_true.mp hops) op hmem
    simpa using this
  have hst := applyOps_statusInv ops hops' Planner.init statusInv_init cid plan h
  rw [hst]
  exact ⟨derivedStatus_eq_completed_iff plan.steps,
         derivedStatus_eq_failed_iff plan.steps,
         derivedStatus_eq_executing_iff plan.steps⟩

/-- C5 counterexample: (a) after `create_plan` followed by the
`update_plan_status` override to "completed", the plan's status is
`completed` while no step is completed; (b) after marking step 1 `failed`
and step 2 `in_progress`, the status is `executing` although a step is
failed — refuting both the completed- and the failed-biconditional of the
claim over its stated call vocabulary. -/
theorem status_biconditional_cex :
    (((overrideState.get_plan "CAMU").map
        (fun pl => (pl.status, pl.steps.all (fun s => s.status == "completed")))) =
      some ("completed", false)) ∧
    (((mixedState.get_plan "CAMU").map
        (fun pl => (pl.status, pl.steps.any (fun s => s.status == "failed"),
                    pl.steps.any (fun s => s.status == "in_progress")))) =
      some ("executing", true, true)) :=
  ⟨rfl, rfl⟩

/-- C5 witness: the biconditionals hold for the state reached by a single
create call. -/
theorem reachable_status_biconditional_witness :
    ([Op.createOp "g" none "u"].all (fun op => !op.isPlanOverride) = true) ∧
    ((applyOps Planner.init [Op.createOp "g" none "u"]).get_plan "CAMU" =
      some freshOpsPlan) ∧
    ((freshOpsPlan.status = "completed" ↔
      freshOpsPlan.steps.all (fun s => s.status == "completed") = true) ∧
    (freshOpsPlan.status = "failed" ↔
      (freshOpsPlan.steps.any (fun s => s.status == "failed") = true ∧
       freshOpsPlan.steps.any (fun s => s.status == "in_progress") = false)) ∧
    (freshOpsPlan.status = "executing" ↔
      freshOpsPlan.steps.any (fun s => s.status == "in_progress") = true)) :=
  ⟨rfl, rfl,
   reachable_status_biconditional [Op.createOp "g" none "u"] rfl "CAMU"
     freshOpsPlan rfl⟩

/-- C6 (amended): `update_step_status` applies any requested transition
unconditionally, so the claimed invariant holds only under the executor's
discipline: when a step receives one `in_progress` update followed by one
terminal (`completed`/`failed`) update, `started_at` is set by the first
call and preserved by the second, `completed_at` is set by the second call
one clock tick later, so `completed_at` is greater than or equal to (in
fact greater than) `started_at`. -/
theorem step_two_phase_timestamps (p : Planner) (cid : String) (n : Nat)
    (t : String) (ht : t = "completed" ∨ t = "failed") (e : Option String)
    (plan : CampaignPlan) (step : PlanStep)
    (hplan : p.get_plan cid = some plan) (hstep : plan.get_step n = some step) :
    ((((update_step_status (update_step_status p cid n "in_progress" none none).2
        cid n t none e).2.get_plan cid).bind (fun pl => pl.get_step n)).map
      (fun s => (s.status, s.started_at, s.completed_at))) =
      some (t, some p.clock, some (p.clock + 1)) := by
  obtain ⟨plan1, h1a, h1b, h1c⟩ :=
    update_step_status_state p cid n "in_progress" none none plan step hplan hstep
  obtain ⟨plan2, h2a, h2b, h2c⟩ :=
    update_step_status_state (update_step_status p cid n "in_progress" none none).2
      cid n t none e plan1 (applyStepUpdate p.clock "in_progress" none none step)
      h1a h1b
  rw [h2a]
  simp only [Option.some_bind, h2b, Option.map_some', h1c]
  rcases ht with rfl | rfl <;> cases e <;> simp [applyStepUpdate] <;> split <;> simp

/-- C6 counterexample: `update_step_status` happily moves step 1 from the
terminal status `completed` back to `in_progress`, and the re-entry stamps
`started_at` (= 2) after `completed_at` (= 1), refuting both the
no-exit-from-terminal clause and the timestamp-ordering clause over
arbitrary call sequences. -/
theorem step_terminal_exit_cex :
    ((((update_step_status (create_plan Planner.init "g" none "u").2
        "CAMU" 1 "completed" none none).2.get_plan "CAMU").bind
        (fun pl => pl.get_step 1)).map (fun s => s.status) = some "completed") ∧
    ((update_step_status
        (update_step_status (create_plan Planner.init "g" none "u").2
          "CAMU" 1 "completed" none none).2
        "CAMU" 1 "in_progress" none none).1 = true) ∧
    (((terminalExitState.get_plan "CAMU").bind (fun pl => pl.get_step 1)).map
        (fun s => (s.status, s.started_at, s.completed_at)) =
      some ("in_progress", some 2, some 1)) :=
  ⟨rfl, rfl, rfl⟩

/-- C6 witness: the two-phase discipline on step 1 of a fresh plan. -/
theorem step_two_phase_timestamps_witness :
    ("completed" = "completed" ∨ "completed" = "failed") ∧
    (scenarioPlanner.get_plan "CAMU" = some scenarioPlan) ∧
    (scenarioPlan.get_step 1 = some scenarioStep) ∧
    ((((update_step_status (update_step_status scenarioPlanner "CAMU" 1
        "in_progress" none none).2 "CAMU" 1 "completed" none none).2.get_plan
        "CAMU").bind (fun pl => pl.get_step 1)).map
      (fun s => (s.status, s.started_at, s.completed_at))) =
      some ("completed", some scenarioPlanner.clock, some (scenarioPlanner.clock + 1)) :=
  ⟨Or.inl rfl, rfl, rfl,
   step_two_phase_timestamps scenarioPlanner "CAMU" 1 "completed" (Or.inl rfl)
     none scenarioPlan scenarioStep rfl rfl⟩

/-- C7: when the plan id is absent, or the step number matches no step of
the located plan, `update_step_status` returns `false` and the entire
registry state — the plan map and the clock — is unchanged. -/
theorem update_step_status_not_found (p : Planner) (cid : String) (n : Nat)
    (st : String) (r : Option Value) (e : Option String)
    (h : ((p.get_plan cid).bind (fun plan => plan.get_step n)) = none) :
    update_step_status p cid n st r e = (false, p) :=
  update_step_status_not_found_eq p cid n st r e h

/-- C7 witness: concrete scenario C (unknown plan id) and an unknown step
number on an existing plan. -/
theorem update_step_status_not_found_witness :
    ((((Planner.init.get_plan "nonexistent-id").bind (fun plan => plan.get_step 1)) = none) ∧
      update_step_status Planner.init "nonexistent-id" 1 "completed" none none =
        (false, Planner.init)) ∧
    (((((create_plan Planner.init "g" none "u").2.get_plan "CAMU").bind
        (fun plan => plan.get_step 99)) = none) ∧
      update_step_status (create_plan Planner.init "g" none "u").2 "CAMU" 99
          "completed" none none =
        (false, (create_plan Planner.init "g" none "u").2)) :=
  ⟨⟨rfl, update_step_status_not_found Planner.init "nonexistent-id" 1 "completed"
      none none rfl⟩,
   ⟨rfl, update_step_status_not_found (create_plan Planner.init "g" none "u").2
      "CAMU" 99 "completed" none none rfl⟩⟩

/-- C8: updating an existing step with a non-`None` result `r` stores `r` as
the step's `result` (with the requested status), and also under the step's
`agent_name` in the plan-level results mapping, as observed through
`get_plan_status`. -/
theorem update_step_status_merges_result (p : Planner) (cid : String) (n : Nat)
    (st : String) (r : Value) (e : Option String)
    (plan : CampaignPlan) (step : PlanStep)
    (hplan : p.get_plan cid = some plan) (hstep : plan.get_step n = some step) :
    ((((update_step_status p cid n st (some r) e).2.get_plan cid).bind
        (fun pl => pl.get_step n)).map (fun s => (s.result, s.status)) =
      some (some r, st)) ∧
    (((get_plan_status (update_step_status p cid n st (some r) e).2 cid).map
        (fun v => dictGet step.agent_name v.results)) = some (some r)) := by
  rw [update_step_status_found p cid n st (some r) e plan step hplan hstep]
  constructor
  · show ((dictGet cid (dictInsert cid _ p.campaign_plans)).bind _).map _ = _
    rw [dictGet_dictInsert_self]
    show ((CampaignPlan.get_step _ n).map _) = _
    unfold CampaignPlan.get_step
    show ((updateFirstStep n (applyStepUpdate p.clock st (some r) e) plan.steps).find?
      (fun s => s.step == n)).map _ = _
    rw [find?_updateFirstStep n _ (fun s => applyStepUpdate_step _ _ _ _ s)]
    unfold CampaignPlan.get_step at hstep
    rw [hstep]
    simp [applyStepUpdate_result_some, applyStepUpdate_status]
  · unfold get_plan_status
    rw [dictGet_dictInsert_self]
    simp [dictGet_dictInsert_self]

/-- C8 witness: concrete scenario B — step 1 completed with the
`{"objective": "retention"}` payload, visible under `results["GoalParser"]`. -/
theorem update_step_status_merges_result_witness :
    (scenarioPlanner.get_plan "CAMU" = some scenarioPlan) ∧
    (scenarioPlan.get_step 1 = some scenarioStep) ∧
    ((((update_step_status scenarioPlanner "CAMU" 1 "completed"
          (some retentionResult) none).2.get_plan "CAMU").bind
        (fun pl => pl.get_step 1)).map (fun s => (s.result, s.status)) =
      some (some retentionResult, "completed")) ∧
    (((get_plan_status (update_step_status scenarioPlanner "CAMU" 1 "completed"
          (some retentionResult) none).2 "CAMU").map
        (fun v => dictGet scenarioStep.agent_name v.results)) =
      some (some retentionResult)) :=
  ⟨rfl, rfl,
   (update_step_status_merges_result scenarioPlanner "CAMU" 1 "completed"
      retentionResult none scenarioPlan scenarioStep rfl rfl).1,
   (update_step_status_merges_result scenarioPlanner "CAMU" 1 "completed"
      retentionResult none scenarioPlan scenarioStep rfl rfl).2⟩

/-- C9 counterexample: two successive `create_plan` calls whose underlying
uuid draws are distinct strings nevertheless return the same plan id,
because the id keeps only the uppercased 8-character prefix and no
collision check against existing identifiers is made. -/
theorem create_plan_id_collision_cex :
    (("abcdef12-1111" : String) ≠ "abcdef12-2222") ∧
    ((create_plan Planner.init "g1" none "abcdef12-1111").1.1 =
     (create_plan (create_plan Planner.init "g1" none "abcdef12-1111").2 "g2"
        none "abcdef12-2222").1.1) :=
  ⟨by decide, rfl⟩

/-- C9 (amended): two `create_plan` calls return distinct plan ids whenever
the uppercased 8-character prefixes of their uuid draws differ; uniqueness
is only as strong as the randomness of that prefix, with no collision check. -/
theorem create_plan_ids_distinct (p q : Planner) (g1 g2 : String)
    (n1 n2 : Option String) (u1 u2 : String)
    (h : upperStr (takeStr u1 8) ≠ upperStr (takeStr u2 8)) :
    (create_plan p g1 n1 u1).1.1 ≠ (create_plan q g2 n2 u2).1.1 := by
  intro heq
  apply h
  have heq' : generate_campaign_id u1 = generate_campaign_id u2 := heq
  unfold generate_campaign_id at heq'
  exact string_append_left_cancel "CAM" _ _ heq'

/-- C9 witness: distinct prefixes give distinct ids. -/
theorem create_plan_ids_distinct_witness :
    (upperStr (takeStr "aaa" 8) ≠ upperStr (takeStr "bbb" 8)) ∧
    ((create_plan Planner.init "g1" none "aaa").1.1 ≠
     (create_plan Planner.init "g2" none "bbb").1.1) :=
  ⟨by decide,
   create_plan_ids_distinct Planner.init Planner.init "g1" "g2" none none
     "aaa" "bbb" (by decide)⟩

/-- C10: `update_step_status` with `result = none` (as on every
`in_progress` transition and on every failure) leaves the plan-level
results mapping and every step's `result` field unchanged. -/
theorem update_step_status_none_result_frame (p : Planner) (cid : String)
    (n : Nat) (st : String) (e : Option String) (plan : CampaignPlan)
    (hplan : p.get_plan cid = some plan) :
    (((update_step_status p cid n st none e).2.get_plan cid).map
        (fun pl => (pl.results, pl.steps.map (fun s => s.result)))) =
      some (plan.results, plan.steps.map (fun s => s.result)) := by
  rcases hstep : plan.get_step n with _ | step
  · rw [update_step_status_not_found_eq p cid n st none e
      (by rw [hplan]; simpa using hstep)]
    rw [show Planner.get_plan p cid = some plan from hplan]
    rfl
  · rw [update_step_status_found p cid n st none e plan step hplan hstep]
    show ((dictGet cid (dictInsert cid _ p.campaign_plans)).map _) = _
    rw [dictGet_dictInsert_self]
    simp only [Option.map_some']
    rw [map_updateFirstStep n (applyStepUpdate p.clock st none e) (fun s => s.result)
      (fun s => applyStepUpdate_result_none p.clock st e s) plan.steps]

/-- C10 witness: completing step 1 with no result leaves the results
mapping empty — the step is `completed` yet `results` has no
`"GoalParser"` entry, and nothing else changed. -/
theorem update_step_status_none_result_frame_witness :
    (scenarioPlanner.get_plan "CAMU" = some scenarioPlan) ∧
    ((((update_step_status scenarioPlanner "CAMU" 1 "completed" none none).2.get_plan
        "CAMU").map (fun pl => (pl.results, pl.steps.map (fun s => s.result)))) =
      some (scenarioPlan.results, scenarioPlan.steps.map (fun s => s.result))) ∧
    ((((update_step_status scenarioPlanner "CAMU" 1 "completed" none none).2.get_plan
        "CAMU").bind (fun pl => pl.get_step 1)).map (fun s => s.status) =
      some "completed") ∧
    (((update_step_status scenarioPlanner "CAMU" 1 "completed" none none).2.get_plan
        "CAMU").map (fun pl => dictGet "GoalParser" pl.results) = some none) :=
  ⟨rfl,
   update_step_status_none_result_frame scenarioPlanner "CAMU" 1 "completed" none
     scenarioPlan rfl,
   rfl, rfl⟩

end EngageIQ
